import Mathlib

/-!
# Verification of the schema-comparison and data-quality validation engine

Shallow embedding of the engine found in `tools.py` (SchemaExtractor,
SchemaComparator, TypeValidator, DataQualityChecker) and `main.py`
(SchemaHistoryStore, MultiSheetOrchestrator).  Pandas data frames are
modelled as a header list plus labelled rows of tagged values; the
database, the interactive table selection and the LLM collaborators are
explicit inputs.  Python floats are modelled as rationals (no claim in
scope depends on floating-point rounding).
-/

/-- A cell value of a loaded dataset: the tagged union over the Python
value kinds the engine manipulates.  `null` covers `None`/`NaN`. -/
inductive Value where
  | null : Value
  | int : Int → Value
  | float : Rat → Value
  | str : String → Value
  | bool : Bool → Value
deriving DecidableEq, Repr

/-- `pd.isnull` on a single cell. -/
def Value.isNull : Value → Bool
  | .null => true
  | _ => false

/-- Python `str(...)` on a cell, as used when sampling offending values. -/
def Value.toStr : Value → String
  | .null => "None"
  | .int n => toString n
  | .float q => toString q
  | .str s => s
  | .bool b => if b then "True" else "False"

/-- Digits to a natural number (most significant first). -/
def digitsToNat (cs : List Char) : Nat :=
  cs.foldl (fun a c => a * 10 + (c.toNat - 48)) 0

/-- Python `.strip()` over the whitespace characters in scope. -/
def pyStrip (s : String) : String :=
  ⟨((s.toList.dropWhile Char.isWhitespace).reverse.dropWhile Char.isWhitespace).reverse⟩

/-- Python `.lower()`. -/
def pyLower (s : String) : String :=
  ⟨s.toList.map Char.toLower⟩

/-- Python `.upper()`. -/
def pyUpper (s : String) : String :=
  ⟨s.toList.map Char.toUpper⟩

/-- Decimal numeral without sign: `digits` optionally followed by
`.digits`, as a mantissa/denominator pair.  Models the numeral forms
`pd.to_numeric` accepts on the string data the engine sees. -/
def parseUnsignedDec (cs : List Char) : Option (Nat × Nat) :=
  let intPart := cs.takeWhile Char.isDigit
  let rest := cs.dropWhile Char.isDigit
  if intPart.isEmpty then none
  else
    match rest with
    | [] => some (digitsToNat intPart, 1)
    | '.' :: rest2 =>
      let frac := rest2.takeWhile Char.isDigit
      let rest3 := rest2.dropWhile Char.isDigit
      if rest3.isEmpty then
        some (digitsToNat intPart * 10 ^ frac.length + digitsToNat frac, 10 ^ frac.length)
      else none
    | _ => none

/-- Decimal numeral with optional sign and surrounding whitespace. -/
def parseDec (s : String) : Option Rat :=
  match (pyStrip s).toList with
  | '-' :: cs => (parseUnsignedDec cs).map (fun p => mkRat (-(p.1 : Int)) p.2)
  | '+' :: cs => (parseUnsignedDec cs).map (fun p => mkRat p.1 p.2)
  | cs => (parseUnsignedDec cs).map (fun p => mkRat p.1 p.2)

/-- `pd.to_numeric(value, errors='coerce')` on a single cell: `none` is the
NaN produced for a non-coercible value. -/
def Value.toNumeric : Value → Option Rat
  | .null => none
  | .int n => some (mkRat n 1)
  | .float q => some q
  | .str s => parseDec s
  | .bool b => some (mkRat (if b then 1 else 0) 1)

/-- One data-frame column header: its name and its pandas dtype tag
(`"int64"`, `"float64"`, `"object"`, `"datetime64[ns]"`, `"bool"`). -/
structure Header where
  name : String
  dtype : String
deriving DecidableEq, Repr

/-- A pandas data frame: ordered headers (duplicate names possible after
renaming) and rows carrying their index label, which pandas preserves
across row-filtering operations such as `dropna`. -/
structure DataFrame where
  headers : List Header
  rows : List (Nat × List Value)
deriving DecidableEq, Repr

/-- `df.columns` as a name list. -/
def DataFrame.colNames (df : DataFrame) : List String :=
  df.headers.map Header.name

/-- A single column extracted from a frame (`df[name]` when the name is
unambiguous): its dtype and its labelled cells. -/
structure Series where
  dtype : String
  entries : List (Nat × Value)
deriving DecidableEq, Repr

/-- Positions of the headers carrying a given name. -/
def DataFrame.colIdxs (df : DataFrame) (n : String) : List Nat :=
  (List.range df.headers.length).filter
    (fun i => (df.headers.getD i ⟨"", ""⟩).name == n)

/-- `df[name]`: a `Series` when exactly one column has the name, `none`
when the name is absent or duplicated (pandas then yields a sub-frame,
which the validators detect with `isinstance(..., DataFrame)` and skip). -/
def DataFrame.getSeries (df : DataFrame) (n : String) : Option Series :=
  match df.colIdxs n with
  | [i] => some ⟨(df.headers.getD i ⟨"", ""⟩).dtype,
                 df.rows.map (fun r => (r.1, r.2.getD i .null))⟩
  | _ => none

/-- `df.dropna(how='all')`: removes the rows whose cells are all null,
keeping the surviving rows' original index labels. -/
def DataFrame.dropAllNullRows (df : DataFrame) : DataFrame :=
  ⟨df.headers, df.rows.filter (fun r => !(r.2.all Value.isNull))⟩

/-- `df.rename(columns=mapping)`: renames headers, leaving unmapped names
and all data unchanged. -/
def DataFrame.rename (df : DataFrame) (m : List (String × String)) : DataFrame :=
  ⟨df.headers.map (fun h => ⟨((m.lookup h.name).getD h.name), h.dtype⟩), df.rows⟩

/-- Python dict assignment `m[k] = v` on an association list: replaces in
place if the key exists, appends otherwise. -/
def updateAssoc {β : Type} (m : List (String × β)) (k : String) (v : β) :
    List (String × β) :=
  if m.any (fun p => p.1 == k) then
    m.map (fun p => if p.1 == k then (k, v) else p)
  else m ++ [(k, v)]

/-- Profile of one dataset column inside a FileSchema. -/
structure ColumnProfile where
  inferred_type : String
  sample_values : List Value
  null_count : Nat
deriving DecidableEq, Repr

/-- The structural schema extracted from a sheet.  All constructors in the
source either set `error` and leave `columns` empty, or leave `error`
unset. -/
structure FileSchema where
  file_name : String
  sheet_name : Option String
  total_rows : Nat
  total_columns : Nat
  columns : List (String × ColumnProfile)
  error : Option String
deriving DecidableEq, Repr

/-- Pandas `.unique()`: distinct values in first-occurrence order. -/
def uniqueFirst (vs : List Value) : List Value :=
  vs.foldl (fun acc v => if v ∈ acc then acc else acc ++ [v]) []

/-- The cells of the `i`-th column of a frame. -/
def DataFrame.colValues (df : DataFrame) (i : Nat) : List Value :=
  df.rows.map (fun r => r.2.getD i .null)

/-- `extract_schema_from_df` (tools.py).  The source mutates the caller's
frame with `df.dropna(how='all', inplace=True)`; the embedding makes the
mutation explicit by returning the filtered frame alongside the schema.
Temporal sample values are already modelled as strings, so the
`str(...)`-conversion of timestamps is the identity here.  The pure model
has no unexpected-fault path, so the `except` branch (which would return a
schema with `error` set and empty `columns`) is unreachable. -/
def extract_schema_from_df (df : DataFrame) (file_name : String)
    (sheet_name : Option String) : DataFrame × FileSchema :=
  let df := df.dropAllNullRows
  if df.rows.isEmpty || df.headers.isEmpty then
    (df, ⟨file_name, sheet_name, 0, 0, [], none⟩)
  else
    let details := (List.range df.headers.length).foldl (fun acc i =>
      let h := df.headers.getD i ⟨"", ""⟩
      let vals := df.colValues i
      let samples := (uniqueFirst (vals.filter (fun v => !v.isNull))).take 5
      updateAssoc acc h.name
        ⟨h.dtype, samples, (vals.filter Value.isNull).length⟩) []
    (df, ⟨file_name, sheet_name, df.rows.length, df.headers.length, details, none⟩)

/-- A database column as reported by introspection. -/
structure DBColumn where
  type : String
  nullable : Bool
  primary_key : Bool
deriving DecidableEq, Repr

/-- The key set of an association list (a Python dict's keys). -/
def keysOf {β : Type} (m : List (String × β)) : Finset String :=
  (m.map Prod.fst).toFinset

/-- The exact-name structural diff.  The source spells the JSON keys of
the error branch `missing_in_file`/`extra_in_file` instead of the
`columns_missing_from_file`/`columns_extra_in_file` of the normal branch;
the content is identical, and the structured result abstracts the key
spelling. -/
structure RawComparison where
  columns_missing_from_file : Finset String
  columns_extra_in_file : Finset String
deriving DecidableEq

/-- `compare_schemas` (tools.py): set difference by exact name.  When the
file schema carries an error (in the source, also when its `columns` key
is absent, which only happens together with an error), every DB column is
reported missing and nothing extra. -/
def compare_schemas (file_schema : FileSchema)
    (db_schema : List (String × DBColumn)) : RawComparison :=
  if file_schema.error.isSome then
    ⟨keysOf db_schema, ∅⟩
  else
    ⟨keysOf db_schema \ keysOf file_schema.columns,
     keysOf file_schema.columns \ keysOf db_schema⟩

/-- `pandas_to_sql_map` (tools.py, validate_data_types). -/
def pandas_to_sql_map : List (String × List String) :=
  [("int64", ["INTEGER", "INT"]),
   ("float64", ["REAL", "FLOAT", "NUMERIC"]),
   ("object", ["TEXT", "VARCHAR", "CHAR", "DATE", "DATETIME", "TIMESTAMP"]),
   ("datetime64[ns]", ["DATE", "DATETIME", "TIMESTAMP"]),
   ("bool", ["BOOLEAN", "BOOL"])]

/-- The inverted map, built exactly as the source does: a SQL type already
present is overwritten only when the new pandas category is not
`object` (so DATE/DATETIME/TIMESTAMP end up mapped to `datetime64[ns]`). -/
def sql_to_pandas_map : List (String × String) :=
  pandas_to_sql_map.foldl (fun m p =>
    p.2.foldl (fun m sqlType =>
      if !(m.any (fun q => q.1 == pyUpper sqlType)) || p.1 ≠ "object" then
        updateAssoc m (pyUpper sqlType) p.1
      else m) m) []

/-- `str(type).split('(')[0].upper()`: the declared base type with any
parameters stripped. -/
def db_type_base (t : String) : String :=
  pyUpper ⟨t.toList.takeWhile (fun c => c ≠ '(')⟩

/-- The temporal declared base types. -/
def dateTypes : List String := ["DATE", "DATETIME", "TIMESTAMP"]

/-- One reported type mismatch. -/
structure TypeViolation where
  column : String
  expected_db_type : String
  found_file_type : String
  sample_invalid_values : List String
deriving DecidableEq, Repr

/-- `float(val) == int(float(val))`: the parsed number is integral. -/
def isIntegral (q : Rat) : Bool := q.den == 1

/-- Offending for an expected-integer column found as text: fails numeric
parsing or parses to a non-integral number. -/
def intSampleBad (v : Value) : Bool :=
  match v.toNumeric with
  | some q => !isIntegral q
  | none => true

/-- Offending for an expected-float column found as text: fails numeric
parsing. -/
def floatSampleBad (v : Value) : Bool := v.toNumeric.isNone

/-- Sample collection of `validate_data_types`, branch for branch. -/
def collectInvalidSamples (expected file_dtype : String) (vals : List Value) :
    List String :=
  let uniq := uniqueFirst (vals.filter (fun v => !v.isNull))
  if expected = "int64" ∧ file_dtype = "object" then
    ((uniq.filter intSampleBad).take 5).map Value.toStr
  else if expected = "float64" ∧ file_dtype = "object" then
    ((uniq.filter floatSampleBad).take 5).map Value.toStr
  else if file_dtype = "object" then
    (uniq.take 5).map Value.toStr
  else []

/-- Processing of a single DB-schema entry inside `validate_data_types`:
skip names absent from the frame, skip duplicated names, skip unknown
declared base types, and flag a category mismatch unless the declared type
is temporal and the file dtype is `object`. -/
def validateEntry (df : DataFrame) (p : String × DBColumn) : List TypeViolation :=
  if p.1 ∈ df.colNames then
    match df.getSeries p.1 with
    | none => []
    | some s =>
      match sql_to_pandas_map.lookup (db_type_base p.2.type) with
      | none => []
      | some expected =>
        if s.dtype ≠ expected ∧ ¬(db_type_base p.2.type ∈ dateTypes ∧ s.dtype = "object") then
          [⟨p.1, db_type_base p.2.type, s.dtype,
            collectInvalidSamples expected s.dtype (s.entries.map Prod.snd)⟩]
        else []
  else []

/-- `validate_data_types` (tools.py): the per-entry reports in DB-schema
iteration order. -/
def validate_data_types (df : DataFrame) (db_schema : List (String × DBColumn)) :
    List TypeViolation :=
  db_schema.flatMap (validateEntry df)

/-- A CHECK constraint as reported by the database inspector. -/
structure CheckConstraint where
  name : Option String
  sqltext : String
deriving DecidableEq, Repr

/-- A data-quality violation.  Severities are the fixed literals the
source attaches at each emission site.  The free-text `details` strings
are presentation only and are not modelled. -/
inductive DQViolation where
  | not_null_violation (column : String) (count : Nat)
      (affected_rows_sample_indices : List Nat) (severity : String)
  | primary_key_violation (column : String) (distinct_keys_duplicated : Nat)
      (total_duplicate_records : Nat) (sample_duplicate_values : List String)
      (severity : String)
  | check_constraint_violation (column : String) (constraint_name : Option String)
      (sqltext : String) (count : Nat) (affected_rows_sample_indices : List Nat)
      (sample_violating_values : List String) (severity : String)
deriving DecidableEq, Repr

/-- The column a violation was reported for. -/
def DQViolation.column : DQViolation → String
  | .not_null_violation c _ _ _ => c
  | .primary_key_violation c _ _ _ _ => c
  | .check_constraint_violation c _ _ _ _ _ _ => c

/-- `pd.api.types.is_numeric_dtype` on the dtype tags in scope (pandas
counts `bool` as numeric). -/
def is_numeric_dtype (dtype : String) : Bool :=
  dtype == "int64" || dtype == "float64" || dtype == "bool"

/-- `pd.api.types.is_datetime64_any_dtype` on the dtype tags in scope. -/
def is_datetime_dtype (dtype : String) : Bool :=
  dtype == "datetime64[ns]"

/-- The not-null check of `run_data_quality_checks`, branch for branch.
Note the source's empty-string branch demands a dtype that is numeric or
datetime *and* equal to `object` at the same time, so it never fires,
while the sample-index filter does include empty strings of an `object`
column. -/
def nullCheck (n : String) (s : Series) (dbcol : DBColumn) : List DQViolation :=
  if dbcol.nullable then []
  else
    let null_count := (s.entries.filter (fun e => e.2.isNull)).length
    let null_count :=
      if (is_numeric_dtype s.dtype || is_datetime_dtype s.dtype) && s.dtype == "object" then
        null_count + (s.entries.filter (fun e => e.2 == Value.str "")).length
      else null_count
    if 0 < null_count then
      let idxs := ((s.entries.filter
        (fun e => e.2.isNull || (s.dtype == "object" && e.2 == Value.str ""))).map Prod.fst).take 5
      [.not_null_violation n null_count idxs "high"]
    else []

/-- The primary-key uniqueness check of `run_data_quality_checks`: nulls
are dropped first, `duplicated(keep=False)` marks every record whose key
occurs more than once among the remaining rows. -/
def pkCheck (n : String) (s : Series) (dbcol : DBColumn) : List DQViolation :=
  if dbcol.primary_key then
    let nonNull := s.entries.filter (fun e => !e.2.isNull)
    let dupEntries := nonNull.filter
      (fun e => 1 < (nonNull.filter (fun e2 => e2.2 == e.2)).length)
    let distinctVals := uniqueFirst (dupEntries.map Prod.snd)
    if 0 < distinctVals.length then
      [.primary_key_violation n distinctVals.length dupEntries.length
        ((distinctVals.take 5).map Value.toStr) "high"]
    else []
  else []

/-- Boolean prefix test on character lists. -/
def isPrefixList : List Char → List Char → Bool
  | [], _ => true
  | _ :: _, [] => false
  | a :: as, b :: bs => a == b && isPrefixList as bs

/-- Boolean infix test on character lists. -/
def listContains (sub : List Char) : List Char → Bool
  | [] => sub.isEmpty
  | c :: cs => isPrefixList sub (c :: cs) || listContains sub cs

/-- Substring test, `db_col_name in c.get('sqltext', '')` (case
sensitive). -/
def containsSub (sub s : String) : Bool :=
  listContains sub.toList s.toList

/-- The backquote character (one of the two quote characters the
constraint pattern accepts around the column name). -/
def backquote : Char := Char.ofNat 96

/-- Skip one optional quote character. -/
def skipOptQuote (cs : List Char) : List Char :=
  match cs with
  | c :: rest => if c == '"' || c == backquote then rest else cs
  | [] => []

/-- Skip the whitespace that the pattern's `\s*` accepts. -/
def skipWs (cs : List Char) : List Char :=
  cs.dropWhile Char.isWhitespace

/-- Consume a given character sequence case-insensitively (the source
compiles its pattern with `re.IGNORECASE`). -/
def dropPrefixCI : List Char → List Char → Option (List Char)
  | [], cs => some cs
  | _ :: _, [] => none
  | p :: ps, c :: cs => if p.toLower == c.toLower then dropPrefixCI ps cs else none

/-- The comparison-operator alternation `>=|<=|>|<|!=|=`, longest
alternative first exactly as the pattern lists them. -/
def parseOp : List Char → Option (String × List Char)
  | '>' :: '=' :: rest => some (">=", rest)
  | '>' :: rest => some (">", rest)
  | '<' :: '=' :: rest => some ("<=", rest)
  | '<' :: rest => some ("<", rest)
  | '!' :: '=' :: rest => some ("!=", rest)
  | '=' :: rest => some ("=", rest)
  | _ => none

/-- The numeric-literal group `-?\d+(\.\d+)?` of the constraint pattern:
greedy digits, then an optional fraction; trailing text is ignored, as
the pattern has no end anchor. -/
def parseRegexNumber (cs : List Char) : Option Rat :=
  let neg : Bool := match cs with
    | '-' :: _ => true
    | _ => false
  let cs := match cs with
    | '-' :: rest => rest
    | _ => cs
  let intPart := cs.takeWhile Char.isDigit
  let rest := cs.dropWhile Char.isDigit
  if intPart.isEmpty then none
  else
    let fracPart := match rest with
      | '.' :: rest2 => rest2.takeWhile Char.isDigit
      | _ => []
    let mant : Nat := digitsToNat intPart * 10 ^ fracPart.length + digitsToNat fracPart
    some (mkRat (if neg then -(mant : Int) else (mant : Int)) (10 ^ fracPart.length))

/-- A supported single-column numeric comparison, as parsed from a raw
CHECK expression. -/
structure ParsedCheck where
  op : String
  value : Rat
deriving DecidableEq, Repr

/-- The anchored match of the source's constraint pattern
`["`]?<column>["`]?\s*(>=|<=|>|<|!=|=)\s*(-?\d+(\.\d+)?)` against a
stripped expression. -/
def matchCheck (colName sqltext : String) : Option ParsedCheck :=
  let cs := skipOptQuote sqltext.toList
  match dropPrefixCI colName.toList cs with
  | none => none
  | some cs =>
    let cs := skipWs (skipOptQuote cs)
    match parseOp cs with
    | none => none
    | some (op, cs) =>
      (parseRegexNumber (skipWs cs)).map (fun v => ⟨op, v⟩)

/-- Row-level failure of the comparison, operator branch for operator
branch (`>` is violated by `numeric_col <= value`, and so on). -/
def opViolated (op : String) (q value : Rat) : Bool :=
  if op = ">" then decide (q ≤ value)
  else if op = ">=" then decide (q < value)
  else if op = "<" then decide (value ≤ q)
  else if op = "<=" then decide (value < q)
  else if op = "!=" then q == value
  else if op = "=" then !(q == value)
  else false

/-- Evaluation of one CHECK constraint against one column.  `numeric` is
the coerced column and `is_num` the source's `numeric_col.notna().all()`
gate: the constraint is evaluated only when every value coerced, even
though the later mask (rows whose coercion failed count as
non-violating) would also cope with partial coercion. -/
def evalOneConstraint (n : String) (s : Series) (numeric : List (Nat × Option Rat))
    (is_num : Bool) (c : CheckConstraint) : List DQViolation :=
  let sqltext := pyStrip c.sqltext
  match matchCheck n sqltext with
  | some pc =>
    if is_num then
      let violated := numeric.map (fun e => (e.1,
        match e.2 with
        | some q => opViolated pc.op q pc.value
        | none => false))
      let violation_count := (violated.filter (fun e => e.2)).length
      if 0 < violation_count then
        let affected := ((violated.filter (fun e => e.2)).map Prod.fst).take 5
        let samples := ((s.entries.filter (fun e => e.1 ∈ affected)).map
          (fun e => e.2.toStr)).take 5
        [.check_constraint_violation n c.name sqltext violation_count affected
          samples "medium"]
      else []
    else []
  | none => []

/-- The CHECK-constraint part of `run_data_quality_checks` for one column:
constraints whose raw text mentions the column are evaluated; the column
is coerced once. -/
def checkConstraintChecks (n : String) (s : Series)
    (check_constraints : List CheckConstraint) : List DQViolation :=
  let col_cs := check_constraints.filter (fun c => containsSub n c.sqltext)
  if col_cs.isEmpty then []
  else
    let numeric := s.entries.map (fun e => (e.1, e.2.toNumeric))
    let is_num := numeric.all (fun e => e.2.isSome)
    col_cs.flatMap (evalOneConstraint n s numeric is_num)

/-- Processing of a single DB-schema entry inside
`run_data_quality_checks`: skip names absent from the frame, skip
duplicated names entirely, otherwise run the three independent checks. -/
def dqEntry (df : DataFrame) (check_constraints : List CheckConstraint)
    (p : String × DBColumn) : List DQViolation :=
  if p.1 ∈ df.colNames then
    match df.getSeries p.1 with
    | none => []
    | some s =>
      nullCheck p.1 s p.2 ++ pkCheck p.1 s p.2 ++
        checkConstraintChecks p.1 s check_constraints
  else []

/-- `run_data_quality_checks` (tools.py).  The source fetches the CHECK
constraints itself and degrades to an empty list when the fetch fails;
the embedding takes the fetched list as an argument (the orchestrator
passes the degraded empty list on failure). -/
def run_data_quality_checks (df : DataFrame) (db_schema : List (String × DBColumn))
    (check_constraints : List CheckConstraint) : List DQViolation :=
  db_schema.flatMap (dqEntry df check_constraints)

/-- The columns payload of one persisted schema snapshot
(`{"columns": {...}}`). -/
structure SchemaSnapshot where
  columns : List (String × ColumnProfile)
deriving DecidableEq, Repr

/-- One on-disk snapshot file of a table's history directory.  `ts` is the
timestamp embedded in the file name (`<safeTableName>_schema_<stamp>.json`);
the stamp is fixed-width, so lexicographic file-name order coincides with
numeric timestamp order for one table.  `content` is `none` when the file
fails to parse as JSON. -/
structure HistFile where
  ts : Nat
  content : Option SchemaSnapshot
deriving DecidableEq, Repr

/-- `sorted(glob.glob(pattern), reverse=True)`: the matched files in
descending file-name (hence timestamp) order, whatever order the
directory listing produced them in. -/
def sortFilesDesc (files : List HistFile) : List HistFile :=
  List.insertionSort (fun a b => b.ts ≤ a.ts) files

/-- The snapshot files `load_historical_schemas` actually returns content
from: the most recent `num_history` matches, minus those that fail to
parse. -/
def loadRecentFiles (files : List HistFile) (num_history : Nat) : List HistFile :=
  ((sortFilesDesc files).take num_history).filter (fun f => f.content.isSome)

/-- `load_historical_schemas` (main.py): sort the table's snapshot files
most-recent-first, keep the first `num_history`, load each and skip any
that fails to parse. -/
def load_historical_schemas (files : List HistFile) (num_history : Nat) :
    List SchemaSnapshot :=
  ((sortFilesDesc files).take num_history).filterMap HistFile.content

/-- A database table as the introspection boundary reports it:
column metadata plus the CHECK constraints (`none` models a failed
`get_check_constraints` call, which degrades to no constraints). -/
structure DBTable where
  schema : List (String × DBColumn)
  constraints : Option (List CheckConstraint)
deriving DecidableEq, Repr

/-- The environment of one validation run: the database content, the
interactive table selection, and the outcomes of the two fatal LLM calls
(`naming_mismatches` is the semantic mapping of a successful
schema-analysis response, `none` a failed call; `final_report_ok` tells
whether the final-report call succeeded). -/
structure Env where
  tables : List (String × DBTable)
  user_selection : String
  naming_mismatches : Option (List (String × String))
  final_report_ok : Bool
deriving DecidableEq, Repr

/-- `get_db_schema` (tools.py): `none` when the table does not exist. -/
def get_db_schema (env : Env) (table_name : String) :
    Option (List (String × DBColumn)) :=
  (env.tables.lookup table_name).map DBTable.schema

/-- `inspector.get_check_constraints` with the caller's degradation: a
missing table or a failed fetch yields the empty list. -/
def get_check_constraints (env : Env) (table_name : String) :
    List CheckConstraint :=
  ((env.tables.lookup table_name).bind DBTable.constraints).getD []

/-- `get_all_table_schemas` (tools.py): name-and-base-type summaries of
every table, skipping tables whose detailed schema is missing or empty
(the source's `if schema:`). -/
def get_all_table_schemas (env : Env) :
    List (String × List (String × String)) :=
  env.tables.foldl (fun acc p =>
    match get_db_schema env p.1 with
    | some schema =>
      if schema.isEmpty then acc
      else acc ++ [(p.1, schema.map (fun c => (c.1, db_type_base c.2.type)))]
    | none => acc) []

/-- The successful payload of one sheet's validation: the artifacts the
pipeline computed, including (for the frame-effect analysis) the exact
data frame handed to TypeValidator and DataQualityChecker. -/
structure SheetOk where
  file_schema : FileSchema
  raw_comparison : RawComparison
  type_violations : List TypeViolation
  dq_violations : List DQViolation
  resolved_table : String
  validated_df : DataFrame
deriving DecidableEq

/-- One sheet's outcome: `error` is the error-shaped report the source
builds in its `except` handler (`validation_summary.status = "Error"`,
with the exception text as details). -/
inductive SheetResult where
  | error (details : String)
  | ok (r : SheetOk)
deriving DecidableEq

/-- Whether a sheet result is error-shaped. -/
def SheetResult.isError : SheetResult → Bool
  | .error _ => true
  | .ok _ => false

/-- The pipeline stages after a target table has been resolved: fetch the
DB schema (missing table aborts the sheet), compare, run the
schema-analysis LLM call (failure aborts), apply the semantic remapping,
validate types and data quality, then the final-report LLM call (failure
aborts).  `inferred` is threaded through unchanged, as the source sets it
before these stages run. -/
def runAfterResolve (env : Env) (df1 : DataFrame) (file_schema : FileSchema)
    (target : String) (inferred : Option String) : SheetResult × Option String :=
  match get_db_schema env target with
  | none => (.error "Database table does not exist.", inferred)
  | some db_schema =>
    let raw := compare_schemas file_schema db_schema
    match env.naming_mismatches with
    | none => (.error "Failed to get schema analysis from LLM.", inferred)
    | some m =>
      let mapped_df := df1.rename m
      let tv := validate_data_types mapped_df db_schema
      let dq := run_data_quality_checks mapped_df db_schema
        (get_check_constraints env target)
      if env.final_report_ok then
        (.ok ⟨file_schema, raw, tv, dq, target, mapped_df⟩, inferred)
      else
        (.error "Failed to get final report from LLM.", inferred)

/-- `run_validation_for_sheet` (main.py): extract the schema (an error or
empty column map aborts the sheet), resolve the target table (the
caller-provided name, or an interactive selection from the enumerated
candidate tables, where an empty reply or `'None'` or a name outside the
candidates aborts the sheet), then run the post-resolution pipeline.  The
second component is the sheet's inferred table name, set only by a valid
interactive selection. -/
def run_validation_for_sheet (env : Env) (df : DataFrame) (file_path : String)
    (sheet_name : Option String) (user_provided_table_name : Option String) :
    SheetResult × Option String :=
  let p := extract_schema_from_df df file_path sheet_name
  let df1 := p.1
  let file_schema := p.2
  if file_schema.error.isSome || file_schema.columns.isEmpty then
    (.error "Schema extraction failed", none)
  else
    match user_provided_table_name with
    | some t => runAfterResolve env df1 file_schema t none
    | none =>
      let all_schemas := get_all_table_schemas env
      if all_schemas.isEmpty then
        (.error "No tables found in database to choose from.", none)
      else
        let table_names := all_schemas.map Prod.fst
        let sel := pyStrip env.user_selection
        if sel = "" ∨ pyLower sel = "none" then
          (.error "Process stopped: User confirmed no matching table.", none)
        else if sel ∉ table_names then
          (.error "Invalid table: not in the database. Aborting.", none)
        else
          runAfterResolve env df1 file_schema sel (some sel)

/-- The per-sheet loop of `run_multi_sheet_validation` (main.py): every
sheet is processed independently and contributes its own result to the
aggregate report, keyed by its sheet name. -/
def run_multi_sheet_validation (env : Env) (file_path : String)
    (sheets : List (Option String × DataFrame))
    (user_provided_table_name : Option String) :
    List (Option String × SheetResult) :=
  sheets.map (fun s =>
    (s.1, (run_validation_for_sheet env s.2 file_path s.1 user_provided_table_name).1))

/-- C1: the claim says a CHECK constraint `Quantity > 0` over the values
`[5, 0, -1, "abc"]` yields a check_constraint_violation with count 2,
non-coercible values being excluded per row.  The code instead gates the
whole evaluation on `numeric_col.notna().all()`: one non-coercible value
makes it skip the constraint entirely and emit nothing, even though its
per-row mask (and the comment on it) would support partial coercion.
Without the non-coercible value the comparison does count exactly the
failing coercible rows (0 and -1, count 2). -/
theorem C1_check_gate_skips_partially_coercible_column :
    run_data_quality_checks
      ⟨[⟨"Quantity", "object"⟩],
       [(0, [.int 5]), (1, [.int 0]), (2, [.int (-1)]), (3, [.str "abc"])]⟩
      [("Quantity", ⟨"INTEGER", true, false⟩)]
      [⟨some "chk_qty", "Quantity > 0"⟩] = []
    ∧ run_data_quality_checks
      ⟨[⟨"Quantity", "object"⟩],
       [(0, [.int 5]), (1, [.int 0]), (2, [.int (-1)])]⟩
      [("Quantity", ⟨"INTEGER", true, false⟩)]
      [⟨some "chk_qty", "Quantity > 0"⟩] =
      [.check_constraint_violation "Quantity" (some "chk_qty") "Quantity > 0" 2
        [1, 2] ["0", "-1"] "medium"] := by
  constructor <;> decide

/-- C2: the claim says a non-nullable integer column stored as text with
one null and one empty string yields a not_null_violation with count 2.
The code's empty-string branch requires the dtype to be numeric or
datetime *and* simultaneously `object`, which is impossible, so the empty
string is never counted: the count is 1 — even though the sample-index
filter does report both rows (indices [0, 1]). -/
theorem C2_empty_string_branch_unreachable :
    run_data_quality_checks
      ⟨[⟨"ID", "object"⟩], [(0, [.null]), (1, [.str ""])]⟩
      [("ID", ⟨"INTEGER", false, false⟩)] [] =
      [.not_null_violation "ID" 1 [0, 1] "high"] := by
  decide

/-- C3: the two diff sets are disjoint, their union with the matched-name
set is the union of both schemas' name sets, and each set only draws from
its own side.  The hypothesis — an error-carrying file schema has no
columns — holds for every file schema the source constructs. -/
theorem C3_comparison_partition (fs : FileSchema) (db : List (String × DBColumn))
    (herr : fs.error.isSome = true → fs.columns = []) :
    (compare_schemas fs db).columns_missing_from_file ∩
      (compare_schemas fs db).columns_extra_in_file = ∅
    ∧ (compare_schemas fs db).columns_missing_from_file ∪
        (compare_schemas fs db).columns_extra_in_file ∪
        (keysOf fs.columns ∩ keysOf db) = keysOf fs.columns ∪ keysOf db
    ∧ (compare_schemas fs db).columns_missing_from_file ⊆ keysOf db
    ∧ (compare_schemas fs db).columns_extra_in_file ⊆ keysOf fs.columns := by
  by_cases h : fs.error.isSome
  · have hc : fs.columns = [] := herr h
    refine ⟨?_, ?_, ?_, ?_⟩ <;>
      simp [compare_schemas, h, hc, keysOf]
  · refine ⟨?_, ?_, ?_, ?_⟩
    · ext x
      simp only [compare_schemas, if_neg h, Finset.mem_inter, Finset.mem_sdiff,
        Finset.not_mem_empty, iff_false]
      tauto
    · ext x
      simp only [compare_schemas, if_neg h, Finset.mem_union, Finset.mem_inter,
        Finset.mem_sdiff]
      tauto
    · intro x hx
      simp only [compare_schemas, if_neg h, Finset.mem_sdiff] at hx
      exact hx.1
    · intro x hx
      simp only [compare_schemas, if_neg h, Finset.mem_sdiff] at hx
      exact hx.1

/-- Closed instance of `C3_comparison_partition` on a concrete pair of
schemas. -/
theorem C3_comparison_partition_witness :
    (compare_schemas ⟨"f.csv", none, 2, 2,
        [("OrderID", ⟨"int64", [], 0⟩), ("Qty", ⟨"int64", [], 0⟩)], none⟩
        [("OrderID", ⟨"INTEGER", false, true⟩), ("CustomerID", ⟨"INTEGER", false, false⟩),
         ("Quantity", ⟨"INTEGER", true, false⟩)]).columns_missing_from_file ∩
      (compare_schemas ⟨"f.csv", none, 2, 2,
        [("OrderID", ⟨"int64", [], 0⟩), ("Qty", ⟨"int64", [], 0⟩)], none⟩
        [("OrderID", ⟨"INTEGER", false, true⟩), ("CustomerID", ⟨"INTEGER", false, false⟩),
         ("Quantity", ⟨"INTEGER", true, false⟩)]).columns_extra_in_file = ∅
    ∧ (compare_schemas ⟨"f.csv", none, 2, 2,
        [("OrderID", ⟨"int64", [], 0⟩), ("Qty", ⟨"int64", [], 0⟩)], none⟩
        [("OrderID", ⟨"INTEGER", false, true⟩), ("CustomerID", ⟨"INTEGER", false, false⟩),
         ("Quantity", ⟨"INTEGER", true, false⟩)]).columns_missing_from_file ∪
        (compare_schemas ⟨"f.csv", none, 2, 2,
          [("OrderID", ⟨"int64", [], 0⟩), ("Qty", ⟨"int64", [], 0⟩)], none⟩
          [("OrderID", ⟨"INTEGER", false, true⟩), ("CustomerID", ⟨"INTEGER", false, false⟩),
           ("Quantity", ⟨"INTEGER", true, false⟩)]).columns_extra_in_file ∪
        (keysOf [("OrderID", (⟨"int64", [], 0⟩ : ColumnProfile)), ("Qty", ⟨"int64", [], 0⟩)] ∩
         keysOf [("OrderID", (⟨"INTEGER", false, true⟩ : DBColumn)),
           ("CustomerID", ⟨"INTEGER", false, false⟩), ("Quantity", ⟨"INTEGER", true, false⟩)]) =
        keysOf [("OrderID", (⟨"int64", [], 0⟩ : ColumnProfile)), ("Qty", ⟨"int64", [], 0⟩)] ∪
        keysOf [("OrderID", (⟨"INTEGER", false, true⟩ : DBColumn)),
          ("CustomerID", ⟨"INTEGER", false, false⟩), ("Quantity", ⟨"INTEGER", true, false⟩)]
    ∧ (compare_schemas ⟨"f.csv", none, 2, 2,
        [("OrderID", ⟨"int64", [], 0⟩), ("Qty", ⟨"int64", [], 0⟩)], none⟩
        [("OrderID", ⟨"INTEGER", false, true⟩), ("CustomerID", ⟨"INTEGER", false, false⟩),
         ("Quantity", ⟨"INTEGER", true, false⟩)]).columns_missing_from_file ⊆
        keysOf [("OrderID", (⟨"INTEGER", false, true⟩ : DBColumn)),
          ("CustomerID", ⟨"INTEGER", false, false⟩), ("Quantity", ⟨"INTEGER", true, false⟩)]
    ∧ (compare_schemas ⟨"f.csv", none, 2, 2,
        [("OrderID", ⟨"int64", [], 0⟩), ("Qty", ⟨"int64", [], 0⟩)], none⟩
        [("OrderID", ⟨"INTEGER", false, true⟩), ("CustomerID", ⟨"INTEGER", false, false⟩),
         ("Quantity", ⟨"INTEGER", true, false⟩)]).columns_extra_in_file ⊆
        keysOf [("OrderID", (⟨"int64", [], 0⟩ : ColumnProfile)), ("Qty", ⟨"int64", [], 0⟩)] :=
  C3_comparison_partition _ _ (fun h => by simp at h)

/-- C4: a file schema carrying an error, or having no columns, makes the
comparison report every DB column missing and nothing extra. -/
theorem C4_fail_safe_comparison (fs : FileSchema) (db : List (String × DBColumn))
    (h : fs.error.isSome = true ∨ fs.columns = []) :
    compare_schemas fs db = ⟨keysOf db, ∅⟩ := by
  rcases h with herr | hcols
  · simp [compare_schemas, herr]
  · by_cases he : fs.error.isSome
    · simp [compare_schemas, he]
    · simp [compare_schemas, he, hcols, keysOf]

/-- Closed instance of `C4_fail_safe_comparison`: an empty-column file
schema against a two-column DB schema. -/
theorem C4_fail_safe_comparison_witness :
    compare_schemas ⟨"f.csv", none, 0, 0, [], none⟩
      [("A", ⟨"INTEGER", false, true⟩), ("B", ⟨"TEXT", true, false⟩)] =
      ⟨keysOf [("A", (⟨"INTEGER", false, true⟩ : DBColumn)), ("B", ⟨"TEXT", true, false⟩)], ∅⟩ :=
  C4_fail_safe_comparison _ _ (Or.inr rfl)

/-- Every violation `validateEntry` emits is reported for that entry's
column name. -/
theorem mem_validateEntry_column {df : DataFrame} {p : String × DBColumn}
    {v : TypeViolation} (hv : v ∈ validateEntry df p) : v.column = p.1 := by
  simp only [validateEntry] at hv
  split at hv
  · split at hv
    · simp at hv
    · split at hv
      · simp at hv
      · split at hv
        · simp at hv
          simp [hv]
        · simp at hv
  · simp at hv

/-- A name carried by more than one column yields no `Series`. -/
theorem getSeries_none_of_dup (df : DataFrame) (n : String)
    (h : 1 < (df.colIdxs n).length) : df.getSeries n = none := by
  unfold DataFrame.getSeries
  rcases hc : df.colIdxs n with _ | ⟨i, _ | ⟨j, t⟩⟩
  · rfl
  · rw [hc] at h
    simp at h
  · rfl

/-- When a name yields no `Series`, the type validator skips the entry. -/
theorem validateEntry_eq_nil_of_none {df : DataFrame} {p : String × DBColumn}
    (h : df.getSeries p.1 = none) : validateEntry df p = [] := by
  unfold validateEntry
  split
  · rw [h]
  · rfl

/-- When a name yields no `Series`, the data-quality checker skips the
entry. -/
theorem dqEntry_eq_nil_of_none {df : DataFrame} {cs : List CheckConstraint}
    {p : String × DBColumn} (h : df.getSeries p.1 = none) :
    dqEntry df cs p = [] := by
  unfold dqEntry
  split
  · rw [h]
  · rfl

/-- Every violation the not-null check emits is for its own column. -/
theorem mem_nullCheck_column {n : String} {s : Series} {dbcol : DBColumn}
    {v : DQViolation} (hv : v ∈ nullCheck n s dbcol) : v.column = n := by
  simp only [nullCheck] at hv
  repeat split at hv
  all_goals simp_all [DQViolation.column]

/-- Every violation the primary-key check emits is for its own column. -/
theorem mem_pkCheck_column {n : String} {s : Series} {dbcol : DBColumn}
    {v : DQViolation} (hv : v ∈ pkCheck n s dbcol) : v.column = n := by
  simp only [pkCheck] at hv
  repeat split at hv
  all_goals simp_all [DQViolation.column]

/-- Every violation one constraint evaluation emits is for its own
column. -/
theorem mem_evalOneConstraint_column {n : String} {s : Series}
    {numeric : List (Nat × Option Rat)} {b : Bool} {c : CheckConstraint}
    {v : DQViolation} (hv : v ∈ evalOneConstraint n s numeric b c) :
    v.column = n := by
  simp only [evalOneConstraint] at hv
  repeat split at hv
  all_goals simp_all [DQViolation.column]

/-- Every violation the constraint part emits is for its own column. -/
theorem mem_checkConstraintChecks_column {n : String} {s : Series}
    {cs : List CheckConstraint} {v : DQViolation}
    (hv : v ∈ checkConstraintChecks n s cs) : v.column = n := by
  simp only [checkConstraintChecks] at hv
  split at hv
  · simp at hv
  · obtain ⟨c, _, hc⟩ := List.mem_flatMap.mp hv
    exact mem_evalOneConstraint_column hc

/-- Every violation `dqEntry` emits is reported for that entry's column
name. -/
theorem mem_dqEntry_column {df : DataFrame} {cs : List CheckConstraint}
    {p : String × DBColumn} {v : DQViolation} (hv : v ∈ dqEntry df cs p) :
    v.column = p.1 := by
  simp only [dqEntry] at hv
  split at hv
  · split at hv
    · simp at hv
    · rcases List.mem_append.mp hv with hv2 | hv2
      · rcases List.mem_append.mp hv2 with hv3 | hv3
        · exact mem_nullCheck_column hv3
        · exact mem_pkCheck_column hv3
      · exact mem_checkConstraintChecks_column hv2
  · simp at hv

/-- A temporal declared base type with an `object` file dtype is not
flagged. -/
theorem validateEntry_skip_temporal {df : DataFrame} {p : String × DBColumn}
    {s : Series} (hs : df.getSeries p.1 = some s)
    (hdate : db_type_base p.2.type ∈ dateTypes) (hobj : s.dtype = "object") :
    validateEntry df p = [] := by
  unfold validateEntry
  split
  · simp only [hs]
    rcases hl : sql_to_pandas_map.lookup (db_type_base p.2.type) with _ | expected
    · simp only [hl]
    · simp only [hl]
      simp [hdate, hobj]
  · rfl

/-- A declared base type absent from the compatibility table is not
flagged. -/
theorem validateEntry_skip_unknown {df : DataFrame} {p : String × DBColumn}
    (hl : sql_to_pandas_map.lookup (db_type_base p.2.type) = none) :
    validateEntry df p = [] := by
  unfold validateEntry
  split
  · rcases hs : df.getSeries p.1 with _ | s
    · simp only [hs]
    · simp only [hs, hl]
  · rfl

/-- C8: a column name that refers to more than one data-frame column after
remapping is skipped entirely by both the type validator and the
data-quality checker: neither emits any violation for it. -/
theorem C8_duplicate_column_skipped (df : DataFrame)
    (db_schema : List (String × DBColumn)) (cs : List CheckConstraint)
    (n : String) (hdup : 1 < (df.colIdxs n).length) :
    (∀ v ∈ validate_data_types df db_schema, v.column ≠ n)
    ∧ (∀ v ∈ run_data_quality_checks df db_schema cs, DQViolation.column v ≠ n) := by
  constructor
  · intro v hv hcol
    obtain ⟨p, hp, hvp⟩ := List.mem_flatMap.mp hv
    have hpn : p.1 = n := (mem_validateEntry_column hvp).symm.trans hcol
    rw [validateEntry_eq_nil_of_none
      (by rw [hpn]; exact getSeries_none_of_dup df n hdup)] at hvp
    simp at hvp
  · intro v hv hcol
    obtain ⟨p, hp, hvp⟩ := List.mem_flatMap.mp hv
    have hpn : p.1 = n := (mem_dqEntry_column hvp).symm.trans hcol
    rw [dqEntry_eq_nil_of_none
      (by rw [hpn]; exact getSeries_none_of_dup df n hdup)] at hvp
    simp at hvp

/-- Closed instance of `C8_duplicate_column_skipped`: a frame where
`Amount` appears twice after remapping. -/
theorem C8_duplicate_column_skipped_witness :
    (∀ v ∈ validate_data_types
      ⟨[⟨"Amount", "int64"⟩, ⟨"Amount", "object"⟩], [(0, [.int 1, .str "x"])]⟩
      [("Amount", ⟨"INTEGER", false, false⟩)], v.column ≠ "Amount")
    ∧ (∀ v ∈ run_data_quality_checks
      ⟨[⟨"Amount", "int64"⟩, ⟨"Amount", "object"⟩], [(0, [.int 1, .str "x"])]⟩
      [("Amount", ⟨"INTEGER", false, false⟩)]
      [⟨some "chk", "Amount > 0"⟩], DQViolation.column v ≠ "Amount") :=
  C8_duplicate_column_skipped _ _ _ _ (by decide)

/-- C7: for every matched column, a temporal declared base type together
with a text-like (`object`) file dtype yields no type violation, and a
declared base type absent from the compatibility table is skipped without
a violation. -/
theorem C7_temporal_text_and_unknown_types_skipped (df : DataFrame)
    (db_schema : List (String × DBColumn)) (n : String)
    (h : ∀ p ∈ db_schema, p.1 = n →
      (db_type_base p.2.type ∈ dateTypes ∧
        (df.getSeries n).map Series.dtype = some "object")
      ∨ sql_to_pandas_map.lookup (db_type_base p.2.type) = none) :
    ∀ v ∈ validate_data_types df db_schema, v.column ≠ n := by
  intro v hv hcol
  obtain ⟨p, hp, hvp⟩ := List.mem_flatMap.mp hv
  have hpn : p.1 = n := (mem_validateEntry_column hvp).symm.trans hcol
  have hnil : validateEntry df p = [] := by
    rcases h p hp hpn with ⟨hdate, hobj⟩ | hnone
    · rcases hs : df.getSeries n with _ | s
      · rw [hs] at hobj
        simp at hobj
      · rw [hs] at hobj
        simp only [Option.map_some'] at hobj
        exact validateEntry_skip_temporal (by rw [hpn]; exact hs) hdate
          (Option.some.inj hobj)
    · exact validateEntry_skip_unknown hnone
  rw [hnil] at hvp
  simp at hvp

/-- Closed instance of `C7_temporal_text_and_unknown_types_skipped`: a
DATETIME column ingested as text, with a second schema entry of the same
name whose BLOB base type has no compatibility entry; no violation names
the column. -/
theorem C7_temporal_text_and_unknown_types_skipped_witness :
    (validate_data_types
      ⟨[⟨"OrderDate", "object"⟩], [(0, [.str "2024-01-01"])]⟩
      [("OrderDate", ⟨"DATETIME", true, false⟩),
       ("OrderDate", ⟨"BLOB", true, false⟩)]).filter
      (fun v => v.column == "OrderDate") = [] := by
  have h := C7_temporal_text_and_unknown_types_skipped
    ⟨[⟨"OrderDate", "object"⟩], [(0, [.str "2024-01-01"])]⟩
    [("OrderDate", ⟨"DATETIME", true, false⟩), ("OrderDate", ⟨"BLOB", true, false⟩)]
    "OrderDate" (by decide)
  exact List.filter_eq_nil_iff.mpr (fun v hv => by simpa using h v hv)

instance : IsTotal HistFile (fun a b => b.ts ≤ a.ts) :=
  ⟨fun a b => le_total b.ts a.ts⟩

instance : IsTrans HistFile (fun a b => b.ts ≤ a.ts) :=
  ⟨fun _ _ _ h1 h2 => le_trans h2 h1⟩

instance : IsAntisymm HistFile (fun a b => b.ts < a.ts) :=
  ⟨fun _ _ h1 h2 => absurd (lt_trans h1 h2) (lt_irrefl _)⟩

/-- Loading contents and then dropping parse failures is the same as
dropping parse failures first. -/
theorem filterMap_content_filter (l : List HistFile) :
    l.filterMap HistFile.content =
      (l.filter (fun f => f.content.isSome)).filterMap HistFile.content := by
  induction l with
  | nil => rfl
  | cons f t ih =>
    rcases hf : f.content with _ | s <;>
      simp [List.filterMap_cons, List.filter_cons, hf, ih]

/-- The snapshot sort is sorted most-recent-first. -/
theorem sorted_sortFilesDesc (files : List HistFile) :
    (sortFilesDesc files).Sorted (fun a b => b.ts ≤ a.ts) :=
  List.sorted_insertionSort _ files

/-- The snapshot sort is a permutation of the directory listing. -/
theorem perm_sortFilesDesc (files : List HistFile) : List.Perm (sortFilesDesc files) files :=
  List.perm_insertionSort _ files

/-- With distinct embedded timestamps (file names in one directory are
distinct), a most-recent-first ordering is strictly decreasing. -/
theorem sorted_strict_of_nodup {l : List HistFile}
    (hs : l.Sorted (fun a b => b.ts ≤ a.ts)) (hn : (l.map HistFile.ts).Nodup) :
    l.Sorted (fun a b => b.ts < a.ts) := by
  have hp : l.Pairwise (fun a b => a.ts ≠ b.ts) := List.pairwise_map.mp hn
  exact (List.Pairwise.and hs hp).imp
    (fun h => lt_of_le_of_ne h.1 (Ne.symm h.2))

/-- With distinct timestamps, any directory-listing order sorts to the
same file sequence. -/
theorem sortFilesDesc_eq_of_perm {files files' : List HistFile}
    (hperm : List.Perm files' files) (hn : (files.map HistFile.ts).Nodup) :
    sortFilesDesc files' = sortFilesDesc files := by
  have p1 : List.Perm (sortFilesDesc files') files := (perm_sortFilesDesc files').trans hperm
  have p2 : List.Perm (sortFilesDesc files) files := perm_sortFilesDesc files
  have hn1 : ((sortFilesDesc files').map HistFile.ts).Nodup :=
    ((p1.map HistFile.ts).nodup_iff).mpr hn
  have hn2 : ((sortFilesDesc files).map HistFile.ts).Nodup :=
    ((p2.map HistFile.ts).nodup_iff).mpr hn
  exact List.eq_of_perm_of_sorted (p1.trans p2.symm)
    (sorted_strict_of_nodup (sorted_sortFilesDesc files') hn1)
    (sorted_strict_of_nodup (sorted_sortFilesDesc files) hn2)

/-- C9: `load_historical_schemas` returns at most `n` snapshots; the
returned snapshots are exactly the contents of `loadRecentFiles`, whose
timestamps are ordered most-recent-first; the result does not depend on
the on-disk listing order (any permutation of the files, given the
distinct embedded timestamps of one directory); and every returned
snapshot comes from a file that parsed, parse failures being skipped
rather than failing the call. -/
theorem C9_load_recent_bounded_sorted (files files' : List HistFile) (n : Nat)
    (hperm : List.Perm files' files) (hnodup : (files.map HistFile.ts).Nodup) :
    (load_historical_schemas files n).length ≤ n
    ∧ load_historical_schemas files n =
        (loadRecentFiles files n).filterMap HistFile.content
    ∧ ((loadRecentFiles files n).map HistFile.ts).Sorted (fun a b => b ≤ a)
    ∧ load_historical_schemas files' n = load_historical_schemas files n
    ∧ ∀ s ∈ load_historical_schemas files n, ∃ f ∈ files, f.content = some s := by
  refine ⟨?_, ?_, ?_, ?_, ?_⟩
  · calc (load_historical_schemas files n).length
        ≤ ((sortFilesDesc files).take n).length :=
          List.length_filterMap_le _ _
      _ ≤ n := List.length_take_le _ _
  · exact filterMap_content_filter _
  · have h1 : ((sortFilesDesc files).take n).Sorted (fun a b => b.ts ≤ a.ts) :=
      (sorted_sortFilesDesc files).sublist (List.take_sublist _ _)
    have h2 : (loadRecentFiles files n).Sorted (fun a b => b.ts ≤ a.ts) :=
      h1.sublist (List.filter_sublist _)
    exact List.pairwise_map.mpr h2
  · unfold load_historical_schemas
    rw [sortFilesDesc_eq_of_perm hperm hnodup]
  · intro s hs
    obtain ⟨f, hf, hfc⟩ := List.mem_filterMap.mp hs
    exact ⟨f, (perm_sortFilesDesc files).subset ((List.take_sublist _ _).subset hf),
      hfc⟩

/-- Closed instance of `C9_load_recent_bounded_sorted`: three snapshot
files (one unparseable) listed in a scrambled on-disk order, loading the
two most recent. -/
theorem C9_load_recent_bounded_sorted_witness :
    (load_historical_schemas
      [⟨20240301, some ⟨[("A", ⟨"int64", [], 0⟩)]⟩⟩, ⟨20240101, none⟩,
       ⟨20240201, some ⟨[]⟩⟩] 2).length ≤ 2
    ∧ load_historical_schemas
        [⟨20240301, some ⟨[("A", ⟨"int64", [], 0⟩)]⟩⟩, ⟨20240101, none⟩,
         ⟨20240201, some ⟨[]⟩⟩] 2 =
        (loadRecentFiles
          [⟨20240301, some ⟨[("A", ⟨"int64", [], 0⟩)]⟩⟩, ⟨20240101, none⟩,
           ⟨20240201, some ⟨[]⟩⟩] 2).filterMap HistFile.content
    ∧ ((loadRecentFiles
        [⟨20240301, some ⟨[("A", ⟨"int64", [], 0⟩)]⟩⟩, ⟨20240101, none⟩,
         ⟨20240201, some ⟨[]⟩⟩] 2).map HistFile.ts).Sorted (fun a b => b ≤ a)
    ∧ load_historical_schemas
        [⟨20240101, none⟩, ⟨20240201, some ⟨[]⟩⟩,
         ⟨20240301, some ⟨[("A", ⟨"int64", [], 0⟩)]⟩⟩] 2 =
        load_historical_schemas
          [⟨20240301, some ⟨[("A", ⟨"int64", [], 0⟩)]⟩⟩, ⟨20240101, none⟩,
           ⟨20240201, some ⟨[]⟩⟩] 2
    ∧ ∀ s ∈ load_historical_schemas
        [⟨20240301, some ⟨[("A", ⟨"int64", [], 0⟩)]⟩⟩, ⟨20240101, none⟩,
         ⟨20240201, some ⟨[]⟩⟩] 2,
        ∃ f ∈ [⟨20240301, some ⟨[("A", (⟨"int64", [], 0⟩ : ColumnProfile))]⟩⟩,
          (⟨20240101, none⟩ : HistFile), ⟨20240201, some ⟨[]⟩⟩],
          f.content = some s :=
  C9_load_recent_bounded_sorted _ _ 2 (by decide) (by decide)

/-- A sheet that is empty after dropping fully-blank rows extracts to the
explicit empty schema. -/
theorem extract_empty {df : DataFrame} {fp : String} {k : Option String}
    (hempty : (df.dropAllNullRows).rows = []) :
    extract_schema_from_df df fp k = (df.dropAllNullRows, ⟨fp, k, 0, 0, [], none⟩) := by
  unfold extract_schema_from_df
  simp [hempty]

/-- The extractor always hands back the row-filtered frame. -/
theorem extract_fst (df : DataFrame) (fp : String) (k : Option String) :
    (extract_schema_from_df df fp k).1 = df.dropAllNullRows := by
  unfold extract_schema_from_df
  dsimp only
  split <;> rfl

/-- An empty extraction aborts the sheet with the extraction error. -/
theorem run_sheet_extract_fail {env : Env} {df : DataFrame} {fp : String}
    {k : Option String} {utn : Option String}
    (hempty : (df.dropAllNullRows).rows = []) :
    run_validation_for_sheet env df fp k utn =
      (.error "Schema extraction failed", none) := by
  unfold run_validation_for_sheet
  rw [extract_empty hempty]
  simp

/-- The aggregate report holds, at every position, exactly the standalone
result of the sheet at that position: sheets are processed
independently. -/
theorem multi_sheet_get (env : Env) (fp : String)
    (sheets : List (Option String × DataFrame)) (utn : Option String) (j : Nat) :
    (run_multi_sheet_validation env fp sheets utn)[j]? =
      sheets[j]?.map
        (fun s => (s.1, (run_validation_for_sheet env s.2 fp s.1 utn).1)) := by
  unfold run_multi_sheet_validation
  rw [List.getElem?_map]

/-- C5: a sheet that is empty after dropping fully-blank rows extracts to
a FileSchema with zero rows and no columns (the extractor does not raise),
the orchestrator turns exactly that into an error-shaped result for the
sheet, and every other sheet of the workbook still contributes its own
standalone result. -/
theorem C5_empty_sheet_error_isolated (env : Env) (fp : String)
    (utn : Option String) (sheets : List (Option String × DataFrame)) (i : Nat)
    (k : Option String) (df : DataFrame)
    (hget : sheets[i]? = some (k, df))
    (hempty : (df.dropAllNullRows).rows = []) :
    ((extract_schema_from_df df fp k).2.total_rows = 0
      ∧ (extract_schema_from_df df fp k).2.columns = [])
    ∧ (run_multi_sheet_validation env fp sheets utn)[i]? =
        some (k, .error "Schema extraction failed")
    ∧ ∀ j k2 df2, j ≠ i → sheets[j]? = some (k2, df2) →
        (run_multi_sheet_validation env fp sheets utn)[j]? =
          some (k2, (run_validation_for_sheet env df2 fp k2 utn).1) := by
  refine ⟨⟨?_, ?_⟩, ?_, ?_⟩
  · rw [extract_empty hempty]
  · rw [extract_empty hempty]
  · rw [multi_sheet_get, hget]
    simp [run_sheet_extract_fail hempty]
  · intro j k2 df2 _ hg2
    rw [multi_sheet_get, hg2]
    rfl

/-- With a successfully extracted schema but an empty database, table
resolution aborts the sheet. -/
theorem run_sheet_no_tables {env : Env} {df : DataFrame} {fp : String}
    {k : Option String}
    (herr : (extract_schema_from_df df fp k).2.error = none)
    (hcols : (extract_schema_from_df df fp k).2.columns ≠ [])
    (htab : get_all_table_schemas env = []) :
    run_validation_for_sheet env df fp k none =
      (.error "No tables found in database to choose from.", none) := by
  have hce : (extract_schema_from_df df fp k).2.columns.isEmpty = false := by
    rcases hl : (extract_schema_from_df df fp k).2.columns with _ | ⟨a, t⟩
    · exact absurd hl hcols
    · rfl
  unfold run_validation_for_sheet
  dsimp only
  rw [herr, hce, htab]
  simp

/-- Declining the interactive selection (empty reply or `'None'`) aborts
the sheet without resolving a table. -/
theorem run_sheet_decline {env : Env} {df : DataFrame} {fp : String}
    {k : Option String}
    (herr : (extract_schema_from_df df fp k).2.error = none)
    (hcols : (extract_schema_from_df df fp k).2.columns ≠ [])
    (htab : get_all_table_schemas env ≠ [])
    (hdecl : pyStrip env.user_selection = ""
      ∨ pyLower (pyStrip env.user_selection) = "none") :
    run_validation_for_sheet env df fp k none =
      (.error "Process stopped: User confirmed no matching table.", none) := by
  have hce : (extract_schema_from_df df fp k).2.columns.isEmpty = false := by
    rcases hl : (extract_schema_from_df df fp k).2.columns with _ | ⟨a, t⟩
    · exact absurd hl hcols
    · rfl
  have hte : (get_all_table_schemas env).isEmpty = false := by
    rcases hl : get_all_table_schemas env with _ | ⟨a, t⟩
    · exact absurd hl htab
    · rfl
  unfold run_validation_for_sheet
  dsimp only
  rw [herr, hce, hte]
  simp [hdecl]

/-- Selecting a name outside the candidate set aborts the sheet without
resolving a table. -/
theorem run_sheet_invalid {env : Env} {df : DataFrame} {fp : String}
    {k : Option String}
    (herr : (extract_schema_from_df df fp k).2.error = none)
    (hcols : (extract_schema_from_df df fp k).2.columns ≠ [])
    (htab : get_all_table_schemas env ≠ [])
    (hdecl : ¬(pyStrip env.user_selection = ""
      ∨ pyLower (pyStrip env.user_selection) = "none"))
    (hnot : pyStrip env.user_selection ∉ (get_all_table_schemas env).map Prod.fst) :
    run_validation_for_sheet env df fp k none =
      (.error "Invalid table: not in the database. Aborting.", none) := by
  have hce : (extract_schema_from_df df fp k).2.columns.isEmpty = false := by
    rcases hl : (extract_schema_from_df df fp k).2.columns with _ | ⟨a, t⟩
    · exact absurd hl hcols
    · rfl
  have hte : (get_all_table_schemas env).isEmpty = false := by
    rcases hl : get_all_table_schemas env with _ | ⟨a, t⟩
    · exact absurd hl htab
    · rfl
  unfold run_validation_for_sheet
  dsimp only
  rw [herr, hce, hte]
  simp [hdecl, hnot]

/-- C6: with no caller-supplied table, the orchestrator requires a
selection from the enumerated candidate tables; a declined selection
(empty or `'None'`) or a name outside the candidate set aborts only that
sheet with an error-shaped result and no resolved table, and every other
sheet still contributes its own standalone result. -/
theorem C6_unresolved_table_aborts_sheet (env : Env) (fp : String)
    (sheets : List (Option String × DataFrame)) (i : Nat) (k : Option String)
    (df : DataFrame)
    (hget : sheets[i]? = some (k, df))
    (herr : (extract_schema_from_df df fp k).2.error = none)
    (hcols : (extract_schema_from_df df fp k).2.columns ≠ [])
    (hsel : pyStrip env.user_selection = ""
      ∨ pyLower (pyStrip env.user_selection) = "none"
      ∨ pyStrip env.user_selection ∉ (get_all_table_schemas env).map Prod.fst) :
    (∃ msg, run_validation_for_sheet env df fp k none = (.error msg, none))
    ∧ (∃ msg, (run_multi_sheet_validation env fp sheets none)[i]? =
        some (k, .error msg))
    ∧ ∀ j k2 df2, j ≠ i → sheets[j]? = some (k2, df2) →
        (run_multi_sheet_validation env fp sheets none)[j]? =
          some (k2, (run_validation_for_sheet env df2 fp k2 none).1) := by
  have hmain : ∃ msg, run_validation_for_sheet env df fp k none = (.error msg, none) := by
    by_cases htab : get_all_table_schemas env = []
    · exact ⟨_, run_sheet_no_tables herr hcols htab⟩
    · by_cases hdecl : pyStrip env.user_selection = ""
          ∨ pyLower (pyStrip env.user_selection) = "none"
      · exact ⟨_, run_sheet_decline herr hcols htab hdecl⟩
      · have hnot : pyStrip env.user_selection ∉
            (get_all_table_schemas env).map Prod.fst := by
          rcases hsel with h | h | h
          · exact absurd (Or.inl h) hdecl
          · exact absurd (Or.inr h) hdecl
          · exact h
        exact ⟨_, run_sheet_invalid herr hcols htab hdecl hnot⟩
  obtain ⟨msg, hmsg⟩ := hmain
  refine ⟨⟨msg, hmsg⟩, ⟨msg, ?_⟩, ?_⟩
  · rw [multi_sheet_get, hget]
    simp [hmsg]
  · intro j k2 df2 _ hg2
    rw [multi_sheet_get, hg2]
    rfl

/-- Inversion of a successful post-resolution pipeline: the DB schema was
found, the LLM mapping arrived, the final report succeeded, and the
payload is exactly the artifacts computed from the renamed frame. -/
theorem runAfterResolve_ok {env : Env} {df1 : DataFrame} {fs : FileSchema}
    {target : String} {inferred : Option String} {r : SheetOk}
    {inf2 : Option String}
    (h : runAfterResolve env df1 fs target inferred = (.ok r, inf2)) :
    ∃ db_schema m, get_db_schema env target = some db_schema
      ∧ env.naming_mismatches = some m
      ∧ r = ⟨fs, compare_schemas fs db_schema,
          validate_data_types (df1.rename m) db_schema,
          run_data_quality_checks (df1.rename m) db_schema
            (get_check_constraints env target),
          target, df1.rename m⟩ := by
  unfold runAfterResolve at h
  split at h
  · simp at h
  · rename_i db_schema heq
    split at h
    · simp at h
    · rename_i m hm
      split at h
      · simp at h
        exact ⟨db_schema, m, heq, hm, h.1.symm⟩
      · simp at h

/-- From a successful sheet run through some resolved target, read off the
frame-effect facts. -/
theorem C10_aux {env : Env} {df : DataFrame} {fp : String} {k : Option String}
    {target : String} {inf0 : Option String} {r : SheetOk}
    {inferred : Option String}
    (h : runAfterResolve env (extract_schema_from_df df fp k).1
        (extract_schema_from_df df fp k).2 target inf0 = (.ok r, inferred)) :
    ∃ m db_schema, env.naming_mismatches = some m
      ∧ get_db_schema env r.resolved_table = some db_schema
      ∧ r.validated_df = (df.dropAllNullRows).rename m
      ∧ r.type_violations = validate_data_types ((df.dropAllNullRows).rename m) db_schema
      ∧ r.dq_violations = run_data_quality_checks ((df.dropAllNullRows).rename m)
          db_schema (get_check_constraints env r.resolved_table) := by
  obtain ⟨db_schema, m, hdb, hm, hr⟩ := runAfterResolve_ok h
  subst hr
  exact ⟨m, db_schema, hm, by simpa using hdb, by simp [extract_fst],
    by simp [extract_fst], by simp [extract_fst]⟩

/-- C10: extracting a schema removes the fully-empty rows from the
caller's frame (the embedding returns the mutated frame), and on every
successful sheet run the frame handed to TypeValidator and
DataQualityChecker — and hence the violations in the result — is the
row-filtered (then renamed) frame, not the frame as originally loaded. -/
theorem C10_extraction_mutation_observed_downstream (env : Env) (df : DataFrame)
    (fp : String) (k : Option String) (utn : Option String) (r : SheetOk)
    (inferred : Option String)
    (hok : run_validation_for_sheet env df fp k utn = (.ok r, inferred)) :
    (extract_schema_from_df df fp k).1 = df.dropAllNullRows
    ∧ ∃ m db_schema, env.naming_mismatches = some m
      ∧ get_db_schema env r.resolved_table = some db_schema
      ∧ r.validated_df = (df.dropAllNullRows).rename m
      ∧ r.type_violations = validate_data_types ((df.dropAllNullRows).rename m) db_schema
      ∧ r.dq_violations = run_data_quality_checks ((df.dropAllNullRows).rename m)
          db_schema (get_check_constraints env r.resolved_table) := by
  refine ⟨extract_fst df fp k, ?_⟩
  unfold run_validation_for_sheet at hok
  dsimp only at hok
  split at hok
  · simp at hok
  · split at hok
    · exact C10_aux hok
    · split at hok
      · simp at hok
      · split at hok
        · simp at hok
        · split at hok
          · simp at hok
          · exact C10_aux hok

/-- A two-table-column environment with one CHECK constraint and a
semantic remapping `Qty → Quantity`, used to instantiate the orchestrator
theorems on concrete data. -/
def c10env : Env :=
  ⟨[("orders", ⟨[("OrderID", ⟨"INTEGER", false, true⟩),
                 ("Quantity", ⟨"INTEGER", true, false⟩)],
     some [⟨some "chk_qty", "Quantity > 0"⟩]⟩)],
   "", some [("Qty", "Quantity")], true⟩

/-- A frame with one fully-empty row (label 1), to observe the extractor's
row filtering downstream. -/
def c10df : DataFrame :=
  ⟨[⟨"OrderID", "int64"⟩, ⟨"Qty", "object"⟩],
   [(0, [.int 1, .int 2]), (1, [.null, .null]), (2, [.int 1, .int 0])]⟩

/-- The successful payload of the sheet run on `c10env`/`c10df`. -/
def c10r : SheetOk :=
  match (run_validation_for_sheet c10env c10df "f.csv" none (some "orders")).1 with
  | .ok r => r
  | .error _ => ⟨⟨"", none, 0, 0, [], none⟩, ⟨∅, ∅⟩, [], [], "", ⟨[], []⟩⟩

/-- Closed instance of `C10_extraction_mutation_observed_downstream` on
`c10df`, whose fully-empty row 1 is dropped before validation. -/
theorem C10_extraction_mutation_observed_downstream_witness :
    (extract_schema_from_df c10df "f.csv" none).1 = c10df.dropAllNullRows
    ∧ ∃ m db_schema, c10env.naming_mismatches = some m
      ∧ get_db_schema c10env c10r.resolved_table = some db_schema
      ∧ c10r.validated_df = (c10df.dropAllNullRows).rename m
      ∧ c10r.type_violations =
          validate_data_types ((c10df.dropAllNullRows).rename m) db_schema
      ∧ c10r.dq_violations = run_data_quality_checks
          ((c10df.dropAllNullRows).rename m) db_schema
          (get_check_constraints c10env c10r.resolved_table) :=
  C10_extraction_mutation_observed_downstream c10env c10df "f.csv" none
    (some "orders") c10r none (by decide)

/-- Closed instance of `C5_empty_sheet_error_isolated`: a two-sheet
workbook whose first sheet holds only blank rows. -/
theorem C5_empty_sheet_error_isolated_witness :
    ((extract_schema_from_df ⟨[⟨"A", "int64"⟩], [(0, [.null]), (1, [.null])]⟩
        "wb.xlsx" (some "Empty")).2.total_rows = 0
      ∧ (extract_schema_from_df ⟨[⟨"A", "int64"⟩], [(0, [.null]), (1, [.null])]⟩
        "wb.xlsx" (some "Empty")).2.columns = [])
    ∧ (run_multi_sheet_validation c10env "wb.xlsx"
        [(some "Empty", ⟨[⟨"A", "int64"⟩], [(0, [.null]), (1, [.null])]⟩),
         (some "Data", c10df)] (some "orders"))[0]? =
        some (some "Empty", .error "Schema extraction failed")
    ∧ ∀ j k2 df2, j ≠ 0 →
        [(some "Empty", (⟨[⟨"A", "int64"⟩], [(0, [.null]), (1, [.null])]⟩ : DataFrame)),
         (some "Data", c10df)][j]? = some (k2, df2) →
        (run_multi_sheet_validation c10env "wb.xlsx"
          [(some "Empty", ⟨[⟨"A", "int64"⟩], [(0, [.null]), (1, [.null])]⟩),
           (some "Data", c10df)] (some "orders"))[j]? =
          some (k2, (run_validation_for_sheet c10env df2 "wb.xlsx" k2 (some "orders")).1) :=
  C5_empty_sheet_error_isolated c10env "wb.xlsx" (some "orders") _ 0 (some "Empty")
    ⟨[⟨"A", "int64"⟩], [(0, [.null]), (1, [.null])]⟩ (by decide) (by decide)

/-- The environment of the C6 witness: one candidate table, but the
interactive reply names a table that does not exist. -/
def c6env : Env :=
  ⟨[("orders", ⟨[("OrderID", ⟨"INTEGER", false, true⟩)], some []⟩)],
   "shipments", some [], true⟩

/-- Closed instance of `C6_unresolved_table_aborts_sheet`: the selection
`shipments` is outside the candidate set `[orders]`. -/
theorem C6_unresolved_table_aborts_sheet_witness :
    (∃ msg, run_validation_for_sheet c6env
        ⟨[⟨"OrderID", "int64"⟩], [(0, [.int 7])]⟩ "f.csv" none none =
        (.error msg, none))
    ∧ (∃ msg, (run_multi_sheet_validation c6env "f.csv"
        [(none, ⟨[⟨"OrderID", "int64"⟩], [(0, [.int 7])]⟩)] none)[0]? =
        some (none, .error msg))
    ∧ ∀ j k2 df2, j ≠ 0 →
        [((none : Option String), (⟨[⟨"OrderID", "int64"⟩], [(0, [.int 7])]⟩ : DataFrame))][j]? =
          some (k2, df2) →
        (run_multi_sheet_validation c6env "f.csv"
          [(none, ⟨[⟨"OrderID", "int64"⟩], [(0, [.int 7])]⟩)] none)[j]? =
          some (k2, (run_validation_for_sheet c6env df2 "f.csv" k2 none).1) :=
  C6_unresolved_table_aborts_sheet c6env "f.csv" _ 0 none
    ⟨[⟨"OrderID", "int64"⟩], [(0, [.int 7])]⟩ (by decide) (by decide) (by decide)
    (by decide)
